import Mathlib

/-!
Verification development for the social-api repository's OAuth PKCE flow and
token lifecycle core.  The TypeScript sources are shallowly embedded:

* `src/server/src/token-refresh.ts` — `getValidAccessToken` and its retry loop
  (the provider's `refreshAccessToken` network call is abstracted as an oracle
  of per-attempt outcomes; storage is an explicit list of account rows).
* `src/github-repo/server/src/oauth.ts` — `generatePKCE`,
  `retrieveCodeVerifier`, `buildAuthUrl` and the in-process `pkceStore` with its
  sweep (randomness and SHA-256 are inputs; cookies are explicit data).
* `src/unnamed/part_002` — the `/auth/x/callback` handler's database fallback
  around `retrieveCodeVerifier`, and the `/auth/x/start` handler's DB persist.

Time is modelled as `Int` milliseconds since the epoch, matching `Date.now()`
and `Date` comparison semantics.  JavaScript string truthiness (empty string is
falsy) is modelled explicitly where the source relies on it.
-/

/-- JS-style truthiness of a nullable string: `null`/`undefined` and `""` are
falsy. -/
def truthyStr : Option String → Bool
  | none => false
  | some s => s ≠ ""

/-- `needle` is a prefix of `hay` (character lists). -/
def listPrefixOf : List Char → List Char → Bool
  | [], _ => true
  | _ :: _, [] => false
  | a :: as, b :: bs => a == b && listPrefixOf as bs

/-- `needle` occurs as a contiguous sublist of `hay`. -/
def listContainsSub (needle : List Char) : List Char → Bool
  | [] => needle.isEmpty
  | c :: rest => listPrefixOf needle (c :: rest) || listContainsSub needle rest

/-- Embedding of JavaScript `hay.includes(needle)` for strings. -/
def strIncludes (hay needle : String) : Bool :=
  listContainsSub needle.toList hay.toList

/-! ## Data model: `SocialAccountToken` rows and the storage collaborator -/

/-- One row of the `socialAccounts` table, restricted to the fields the token
core reads and writes (`src/unnamed/part_000` storage interface). -/
structure SocialAccount where
  id : Nat
  userId : String
  platform : String
  accountUsername : String
  accessToken : Option String
  refreshToken : Option String
  tokenExpiresAt : Option Int
  scope : Option String
  isActive : Bool
  deriving DecidableEq, Repr

/-- `storage.getSocialAccountByPlatform(userId, platform)`: first row matching
the (userId, platform) pair. -/
def getSocialAccountByPlatform (db : List SocialAccount) (userId platform : String) :
    Option SocialAccount :=
  db.find? (fun a => a.userId == userId && a.platform == platform)

/-- `storage.updateSocialAccount(id, updates)`: replace the fields of every row
with the given id (ids are unique in the real table; the embedding applies the
update wherever the id matches). -/
def updateSocialAccount (db : List SocialAccount) (i : Nat)
    (f : SocialAccount → SocialAccount) : List SocialAccount :=
  db.map (fun a => if a.id == i then f a else a)

/-- The row `storage.updateSocialAccount` returns (`undefined` when no row has
the id). -/
def findById (db : List SocialAccount) (i : Nat) : Option SocialAccount :=
  db.find? (fun a => a.id == i)

/-! ## Token refresh manager (`src/server/src/token-refresh.ts`) -/

/-- Shape of a successful provider token response
(`refreshAccessToken`'s resolved value). -/
structure RefreshedTokens where
  access_token : String
  refresh_token : Option String
  expires_in : Int
  scope : String
  deriving DecidableEq, Repr

/-- Outcome of one `TwitterOAuth.refreshAccessToken` network call: either the
token payload or a thrown error's message. -/
inductive RefreshOutcome where
  | success (tokens : RefreshedTokens)
  | failure (message : String)
  deriving DecidableEq, Repr

/-- `TokenRefreshResult` interface. -/
structure TokenRefreshResult where
  accessToken : String
  isRefreshed : Bool
  deriving DecidableEq, Repr

deriving instance DecidableEq for Except

/-- Observable result of one `getValidAccessToken` call: the returned value or
thrown error message, the storage state afterwards, how many provider refresh
calls were made, and the backoff delays (ms) awaited between attempts. -/
structure GVATOutput where
  result : Except String TokenRefreshResult
  db : List SocialAccount
  providerCalls : Nat
  delays : List Int
  deriving DecidableEq, Repr

/-- `calculateTokenExpiration(expiresIn)` from `src/server/oauth.ts`:
`new Date(Date.now() + expiresIn * 1000)`. -/
def calculateTokenExpiration (now expiresIn : Int) : Int :=
  now + expiresIn * 1000

/-- The permanent-failure classifier inlined in the catch block:
`lastError.message.includes('invalid') || lastError.message.includes('expired')`. -/
def isPermanentRefreshError (msg : String) : Bool :=
  strIncludes msg "invalid" || strIncludes msg "expired"

/-- The catch-block deactivation message. -/
def reauthRequiredMsg (platform : String) : String :=
  "Refresh token invalid or expired for " ++ platform ++
    " account. Re-authentication required."

/-- The post-loop aggregate failure message. -/
def aggregateFailureMsg (totalAttempts : Nat) (lastMsg : String) : String :=
  "Failed to refresh token after " ++ toString totalAttempts ++
    " attempts: " ++ lastMsg

/-- The field update persisted on a successful refresh (keeps the old refresh
token when the response carries none — JS `||` also rejects `""`). -/
def applyRefreshedTokens (now : Int) (tokens : RefreshedTokens)
    (oldRefreshToken : Option String) (a : SocialAccount) : SocialAccount :=
  { a with
    accessToken := some tokens.access_token
    refreshToken := if truthyStr tokens.refresh_token
                    then tokens.refresh_token else oldRefreshToken
    tokenExpiresAt := some (calculateTokenExpiration now tokens.expires_in)
    scope := some tokens.scope
    isActive := true }

/-- The `for (attempt = 0; attempt <= retryCount; attempt++)` retry loop of
`getValidAccessToken`.  `fuel` counts the iterations still allowed
(`retryCount + 1 - attempt` at entry); the oracle supplies one outcome per
provider call, a missing entry counting as a thrown failure. -/
def refreshLoop (now : Int) (acctId : Nat) (platform : String)
    (storedRefreshToken : Option String) (retryCount : Nat) (backoffMs : Int) :
    Nat → Nat → List RefreshOutcome → List SocialAccount → Nat → List Int →
    Option String → GVATOutput
  | 0, _, _, db, calls, delays, lastErr =>
      ⟨.error (aggregateFailureMsg (retryCount + 1) (lastErr.getD "undefined")),
        db, calls, delays⟩
  | fuel + 1, attempt, oracle, db, calls, delays, _ =>
      match oracle.headD (.failure "fetch failed") with
      | .success tokens =>
          let db1 := updateSocialAccount db acctId
            (applyRefreshedTokens now tokens storedRefreshToken)
          match findById db1 acctId with
          | some _ =>
              ⟨.ok ⟨tokens.access_token, true⟩, db1, calls + 1, delays⟩
          | none =>
              -- `throw new Error('Failed to update social account with new
              -- tokens')` is raised inside the try, so the same catch block
              -- classifies and possibly retries it.
              let m := "Failed to update social account with new tokens"
              if isPermanentRefreshError m then
                ⟨.error (reauthRequiredMsg platform),
                  updateSocialAccount db1 acctId (fun a => { a with isActive := false }),
                  calls + 1, delays⟩
              else if attempt < retryCount then
                refreshLoop now acctId platform storedRefreshToken retryCount
                  backoffMs fuel (attempt + 1) oracle.tail db1 (calls + 1)
                  (delays ++ [backoffMs * 2 ^ attempt]) (some m)
              else
                refreshLoop now acctId platform storedRefreshToken retryCount
                  backoffMs fuel (attempt + 1) oracle.tail db1 (calls + 1)
                  delays (some m)
      | .failure msg =>
          if isPermanentRefreshError msg then
            ⟨.error (reauthRequiredMsg platform),
              updateSocialAccount db acctId (fun a => { a with isActive := false }),
              calls + 1, delays⟩
          else if attempt < retryCount then
            refreshLoop now acctId platform storedRefreshToken retryCount
              backoffMs fuel (attempt + 1) oracle.tail db (calls + 1)
              (delays ++ [backoffMs * 2 ^ attempt]) (some msg)
          else
            refreshLoop now acctId platform storedRefreshToken retryCount
              backoffMs fuel (attempt + 1) oracle.tail db (calls + 1)
              delays (some msg)

/-- `getValidAccessToken(userId, platform, { retryCount, backoffMs })` from
`src/server/src/token-refresh.ts`.  `env` holds `X_CLIENT_ID`/`X_CLIENT_SECRET`
(checked for JS truthiness); `oracle` supplies provider outcomes. -/
def getValidAccessToken (now : Int) (db : List SocialAccount)
    (userId platform : String) (retryCount : Nat) (backoffMs : Int)
    (env : Option String × Option String) (oracle : List RefreshOutcome) :
    GVATOutput :=
  match getSocialAccountByPlatform db userId platform with
  | none =>
      ⟨.error ("No " ++ platform ++ " account found for user " ++ userId),
        db, 0, []⟩
  | some socialAccount =>
      if !socialAccount.isActive then
        ⟨.error (platform ++ " account for user " ++ userId ++ " is inactive"),
          db, 0, []⟩
      else if !truthyStr socialAccount.accessToken then
        ⟨.error ("No access token found for " ++ platform ++ " account"),
          db, 0, []⟩
      else
        let twoMinutesFromNow : Int := now + 2 * 60 * 1000
        let needsRefresh : Bool :=
          match socialAccount.tokenExpiresAt with
          | none => false
          | some exp => exp ≤ twoMinutesFromNow
        if !needsRefresh then
          ⟨.ok ⟨socialAccount.accessToken.getD "", false⟩, db, 0, []⟩
        else if !truthyStr socialAccount.refreshToken then
          ⟨.error ("No refresh token available for " ++ platform ++
              " account. Re-authentication required."),
            updateSocialAccount db socialAccount.id
              (fun a => { a with isActive := false }),
            0, []⟩
        else if !(truthyStr env.1 && truthyStr env.2) then
          ⟨.error "OAuth credentials not configured", db, 0, []⟩
        else
          refreshLoop now socialAccount.id platform socialAccount.refreshToken
            retryCount backoffMs (retryCount + 1) 0 oracle db 0 [] none

/-! ## Ephemeral state store (`src/github-repo/server/src/oauth.ts` and the
callback handler in `src/unnamed/part_002`) -/

/-- One `pkceStore` entry: `{ codeVerifier, timestamp }`. -/
structure PkceEntry where
  codeVerifier : String
  timestamp : Int
  deriving DecidableEq, Repr

/-- The signed-cookie payload `{ codeVerifier, state, timestamp }` set by
`generatePKCE`. -/
structure CookiePayload where
  codeVerifier : String
  state : String
  timestamp : Int
  deriving DecidableEq, Repr

/-- A signed cookie's value as seen after `JSON.parse`: either a well-formed
payload or data whose parse throws (the catch branch). -/
inductive CookieVal where
  | malformed
  | payload (data : CookiePayload)
  deriving DecidableEq, Repr

/-- The in-process `pkceStore` map, keyed by state. -/
def PkceStore := List (String × PkceEntry)
  deriving DecidableEq, Repr

/-- `pkceStore.get(state)`. -/
def pkceStoreGet (store : List (String × PkceEntry)) (state : String) :
    Option PkceEntry :=
  (store.find? (fun kv => kv.1 == state)).map (·.2)

/-- `pkceStore.delete(state)`. -/
def pkceStoreDelete (store : List (String × PkceEntry)) (state : String) :
    List (String × PkceEntry) :=
  store.filter (fun kv => kv.1 != state)

/-- `pkceStore.set(state, { codeVerifier, timestamp })`. -/
def pkceStoreSet (store : List (String × PkceEntry)) (state : String)
    (entry : PkceEntry) : List (String × PkceEntry) :=
  (state, entry) :: pkceStoreDelete store state

/-- The `setInterval` sweep: delete every entry older than 10 minutes. -/
def sweepPkceStore (now : Int) (store : List (String × PkceEntry)) :
    List (String × PkceEntry) :=
  store.filter (fun kv => !(now - kv.2.timestamp > 10 * 60 * 1000))

/-- `req.signedCookies[name]` over an explicit cookie jar. -/
def signedCookieGet (cookies : List (String × CookieVal)) (name : String) :
    Option CookieVal :=
  (cookies.find? (fun kv => kv.1 == name)).map (·.2)

/-- The browser no longer sends a cookie the server cleared. -/
def applyClearedCookies (cookies : List (String × CookieVal))
    (cleared : List String) : List (String × CookieVal) :=
  cookies.filter (fun kv => !cleared.contains kv.1)

/-- The cookie name `oauth_pkce_<state>`. -/
def pkceCookieName (state : String) : String :=
  "oauth_pkce_" ++ state

/-- Result of `retrieveCodeVerifier`: the returned value, the `pkceStore`
afterwards, and the cookies cleared on the response (`clearSecureCookie`). -/
structure RetrieveResult where
  verifier : Option String
  store : List (String × PkceEntry)
  clearedCookies : List String
  deriving DecidableEq, Repr

/-- The memory-fallback tail of `retrieveCodeVerifier` (after the cookie
branch): hit deletes the entry and returns its verifier, miss returns null. -/
def pkceMemoryFallback (state : String) (store : List (String × PkceEntry))
    (cleared : List String) : RetrieveResult :=
  match pkceStoreGet store state with
  | some memData => ⟨some memData.codeVerifier, pkceStoreDelete store state, cleared⟩
  | none => ⟨none, store, cleared⟩

/-- `retrieveCodeVerifier(state, req, res)` from
`src/github-repo/server/src/oauth.ts` lines 57–100.  Cookie first: a
state-mismatched payload clears the cookie and returns null outright; a fresh
(`now - timestamp < 20min`) payload with a truthy verifier clears the cookie
and returns the verifier; an expired/empty payload or a parse failure clears
the cookie and falls through to the in-process store, as does an absent
cookie. -/
def retrieveCodeVerifier (now : Int) (state : String)
    (signedCookies : List (String × CookieVal))
    (store : List (String × PkceEntry)) : RetrieveResult :=
  let cookieName := pkceCookieName state
  match signedCookieGet signedCookies cookieName with
  | some (.payload data) =>
      if data.state ≠ state then
        ⟨none, store, [cookieName]⟩
      else if truthyStr (some data.codeVerifier) &&
          now - data.timestamp < 20 * 60 * 1000 then
        ⟨some data.codeVerifier, store, [cookieName]⟩
      else
        pkceMemoryFallback state store [cookieName]
  | some .malformed =>
      pkceMemoryFallback state store [cookieName]
  | none =>
      pkceMemoryFallback state store []

/-- A row of the persisted `oauthStates` table. -/
structure OauthStateRow where
  state : String
  codeVerifier : String
  platform : String
  expiresAt : Option Int
  deriving DecidableEq, Repr

/-- `storage.getOauthState(state)`. -/
def getOauthState (rows : List OauthStateRow) (state : String) :
    Option OauthStateRow :=
  rows.find? (fun r => r.state == state)

/-- `storage.deleteOauthState(state)`. -/
def deleteOauthState (rows : List OauthStateRow) (state : String) :
    List OauthStateRow :=
  rows.filter (fun r => r.state != state)

/-- Result of the callback handler's retrieve-and-fallback block: the verifier
it proceeds with, plus the state of every backing channel afterwards. -/
structure CallbackRetrieveResult where
  verifier : Option String
  store : List (String × PkceEntry)
  dbRows : List OauthStateRow
  clearedCookies : List String
  deriving DecidableEq, Repr

/-- The `/auth/x/callback` handler's PKCE retrieval (`src/unnamed/part_002`
lines 108–131): `retrieveCodeVerifier` first, then — only when that returned
null — the database row, used when present with a truthy `expiresAt` strictly
in the future.  The database row is not deleted here (deletion happens only
after a fully successful exchange, line 285). -/
def callbackRetrieve (now : Int) (state : String)
    (signedCookies : List (String × CookieVal))
    (store : List (String × PkceEntry))
    (dbRows : List OauthStateRow) : CallbackRetrieveResult :=
  let r := retrieveCodeVerifier now state signedCookies store
  match r.verifier with
  | some v => ⟨some v, r.store, dbRows, r.clearedCookies⟩
  | none =>
      match getOauthState dbRows state with
      | some dbState =>
          match dbState.expiresAt with
          | some e =>
              if e > now then
                ⟨some dbState.codeVerifier, r.store, dbRows, r.clearedCookies⟩
              else
                ⟨none, r.store, dbRows, r.clearedCookies⟩
          | none => ⟨none, r.store, dbRows, r.clearedCookies⟩
      | none => ⟨none, r.store, dbRows, r.clearedCookies⟩

/-! ## PKCE generator (`generatePKCE`) and its encodings -/

/-- The URL-safe base64 alphabet (RFC 4648 §5). -/
def b64Chars : List Char :=
  "ABCDEFGHIJKLMNOPQRSTUVWXYZabcdefghijklmnopqrstuvwxyz0123456789-_".toList

/-- The base64url digit for a 6-bit value. -/
def b64c (n : Nat) : Char := b64Chars.getD (n % 64) 'A'

/-- Node's `buf.toString('base64url')`: unpadded URL-safe base64 of a byte
list. -/
def b64urlEncode : List Nat → List Char
  | [] => []
  | [a] => [b64c (a / 4), b64c (a % 4 * 16)]
  | [a, b] => [b64c (a / 4), b64c (a % 4 * 16 + b / 16), b64c (b % 16 * 4)]
  | a :: b :: c :: rest =>
      b64c (a / 4) :: b64c (a % 4 * 16 + b / 16) ::
        b64c (b % 16 * 4 + c / 64) :: b64c (c % 64) :: b64urlEncode rest

/-- Lowercase hex digit. -/
def hexc (n : Nat) : Char := "0123456789abcdef".toList.getD (n % 16) '0'

/-- Node's `buf.toString('hex')`. -/
def hexEncode : List Nat → List Char
  | [] => []
  | b :: rest => hexc (b / 16) :: hexc (b % 16) :: hexEncode rest

/-- UTF-8 bytes of one character. -/
def utf8Bytes (c : Char) : List Nat :=
  let n := c.toNat
  if n < 128 then [n]
  else if n < 2048 then [192 + n / 64, 128 + n % 64]
  else if n < 65536 then [224 + n / 4096, 128 + n / 64 % 64, 128 + n % 64]
  else [240 + n / 262144, 128 + n / 4096 % 64, 128 + n / 64 % 64, 128 + n % 64]

/-- UTF-8 bytes of a string (what `hash.update(str)` digests). -/
def strUtf8 (s : String) : List Nat :=
  s.toList.flatMap utf8Bytes

/-- The visible output triple of `generatePKCE`. -/
structure PKCETriple where
  codeVerifier : String
  codeChallenge : String
  state : String
  deriving DecidableEq, Repr

/-- Full observable effect of `generatePKCE(res)`
(`src/github-repo/server/src/oauth.ts` lines 20–54): the returned triple, the
`pkceStore` afterwards, and the cookies set on the response. -/
structure GeneratePKCEOutput where
  triple : PKCETriple
  store : List (String × PkceEntry)
  setCookies : List (String × CookieVal)
  deriving DecidableEq, Repr

/-- `generatePKCE(res)`: verifier = base64url of 32 random bytes, challenge =
base64url of SHA-256 of the verifier string, state = hex of 16 random bytes;
stores `{codeVerifier, state, timestamp}` in a signed 20-minute cookie named
`oauth_pkce_<state>` and `{codeVerifier, timestamp}` in `pkceStore`.  The
randomness (`crypto.randomBytes`) and hash (`crypto.createHash('sha256')`) are
environment inputs. -/
def generatePKCE (sha256 : List Nat → List Nat)
    (verifierBytes stateBytes : List Nat) (now : Int)
    (store : List (String × PkceEntry)) : GeneratePKCEOutput :=
  let codeVerifier : String := ⟨b64urlEncode verifierBytes⟩
  let codeChallenge : String := ⟨b64urlEncode (sha256 (strUtf8 codeVerifier))⟩
  let state : String := ⟨hexEncode stateBytes⟩
  let cookiePayload : CookiePayload := ⟨codeVerifier, state, now⟩
  { triple := ⟨codeVerifier, codeChallenge, state⟩
    store := pkceStoreSet store state ⟨codeVerifier, now⟩
    setCookies := [(pkceCookieName state, .payload cookiePayload)] }

/-- The `/auth/x/start` handler's server-side persist (`src/unnamed/part_002`
lines 53–64): a DB row with `expiresAt = now + 20min`. -/
def persistOauthStateRow (now : Int) (state codeVerifier : String)
    (rows : List OauthStateRow) : List OauthStateRow :=
  rows ++ [⟨state, codeVerifier, "x", some (now + 20 * 60 * 1000)⟩]

/-! ## Authorization URL builder (`buildAuthUrl`,
`src/github-repo/server/src/oauth.ts` lines 113–132) -/

/-- Characters `URLSearchParams` serialisation leaves unescaped
(`application/x-www-form-urlencoded`: ASCII alphanumerics and `*-._`). -/
def formSafeChar (c : Char) : Bool :=
  (c.isAlpha && c.toNat < 128) || c.isDigit ||
    c = '*' || c = '-' || c = '.' || c = '_'

/-- Uppercase hex digit, as used by percent-encoding. -/
def hexcUpper (n : Nat) : Char := "0123456789ABCDEF".toList.getD (n % 16) '0'

/-- `%XX` escape of one byte. -/
def percentByte (b : Nat) : List Char :=
  ['%', hexcUpper (b / 16), hexcUpper (b % 16)]

/-- Form-encode one character: space becomes `+`, safe characters pass
through, everything else is the percent-escape of its UTF-8 bytes. -/
def formEncodeChar (c : Char) : List Char :=
  if c = ' ' then ['+']
  else if formSafeChar c then [c]
  else (utf8Bytes c).flatMap percentByte

/-- Form-encode a string. -/
def formEncodeStr (s : String) : String :=
  ⟨s.toList.flatMap formEncodeChar⟩

/-- `new URLSearchParams({...}).toString()` over an ordered key/value list. -/
def formEncode (params : List (String × String)) : String :=
  String.intercalate "&"
    (params.map (fun kv => formEncodeStr kv.1 ++ "=" ++ formEncodeStr kv.2))

/-- The default scope string `buildAuthUrl` substitutes for a falsy `scopes`
argument. -/
def defaultOauthScopes : String :=
  "tweet.read tweet.write users.read offline.access"

/-- The ordered query-parameter list `buildAuthUrl` passes to
`URLSearchParams`. -/
def buildAuthUrlParams (clientId redirectUri state codeChallenge : String)
    (scopes : Option String) : List (String × String) :=
  let oauthScopes := if truthyStr scopes then scopes.getD "" else defaultOauthScopes
  [("response_type", "code"),
   ("client_id", clientId),
   ("redirect_uri", redirectUri),
   ("scope", oauthScopes),
   ("state", state),
   ("code_challenge", codeChallenge),
   ("code_challenge_method", "S256")]

/-- `buildAuthUrl(clientId, redirectUri, state, codeChallenge, scopes?)`. -/
def buildAuthUrl (clientId redirectUri state codeChallenge : String)
    (scopes : Option String) : String :=
  "https://twitter.com/i/oauth2/authorize?" ++
    formEncode (buildAuthUrlParams clientId redirectUri state codeChallenge scopes)

/-! ## Helper lemmas about the storage embedding -/

/-- `find?` commutes with a map that does not change the predicate's verdict. -/
theorem find?_map_pred {α : Type} (p : α → Bool) (g : α → α)
    (h : ∀ x, p (g x) = p x) :
    ∀ l : List α, (l.map g).find? p = (l.find? p).map g := by
  intro l
  induction l with
  | nil => rfl
  | cons a l ih =>
      by_cases hpa : p a = true
      · simp [List.find?_cons_of_pos, hpa, h a]
      · have hga : p (g a) = false := by
          rw [h a]; exact Bool.not_eq_true _ ▸ (by simpa using hpa)
        have hpa' : p a = false := by simpa using hpa
        simp [List.find?_cons_of_neg, hpa', hga, ih]

/-- Updating an account's token fields does not move it in the
(userId, platform) index: the lookup then returns the updated row. -/
theorem getSocialAccountByPlatform_update (db : List SocialAccount)
    (userId platform : String) (a : SocialAccount) (g : SocialAccount → SocialAccount)
    (ha : getSocialAccountByPlatform db userId platform = some a)
    (hg : ∀ x : SocialAccount, (g x).userId = x.userId ∧ (g x).platform = x.platform) :
    getSocialAccountByPlatform (updateSocialAccount db a.id g) userId platform
      = some (g a) := by
  unfold getSocialAccountByPlatform updateSocialAccount
  rw [find?_map_pred _ _ (fun x => ?_)]
  · unfold getSocialAccountByPlatform at ha
    rw [ha]
    simp
  · by_cases hx : x.id == a.id <;> simp [hx, (hg x).1, (hg x).2]

/-- Membership survives `updateSocialAccount`, so `findById` still hits a row
with the same id after an id-preserving update. -/
theorem findById_update_isSome (db : List SocialAccount) (a : SocialAccount)
    (g : SocialAccount → SocialAccount) (hmem : a ∈ db)
    (hg : ∀ x : SocialAccount, (g x).id = x.id) :
    (findById (updateSocialAccount db a.id g) a.id).isSome := by
  unfold findById updateSocialAccount
  rw [List.find?_isSome]
  refine ⟨if a.id == a.id then g a else a, List.mem_map_of_mem _ hmem, ?_⟩
  simp [hg a]

/-- A `find?` hit is a member satisfying the predicate. -/
theorem getSocialAccountByPlatform_mem {db : List SocialAccount}
    {userId platform : String} {a : SocialAccount}
    (ha : getSocialAccountByPlatform db userId platform = some a) : a ∈ db :=
  List.mem_of_find?_eq_some ha

/-! ## Claims about `getValidAccessToken` -/

/-- C10: for every account that is active and has an access token but whose
`tokenExpiresAt` is null, `getValidAccessToken` treats the token as never
expiring — it returns the stored access token with `isRefreshed = false`,
makes no provider call, waits for nothing and leaves storage untouched,
regardless of the current time. -/
theorem getValidAccessToken_nullExpiry_returnsStored
    (now : Int) (db : List SocialAccount) (userId platform : String)
    (retryCount : Nat) (backoffMs : Int) (env : Option String × Option String)
    (oracle : List RefreshOutcome) (a : SocialAccount) (tok : String)
    (ha : getSocialAccountByPlatform db userId platform = some a)
    (hActive : a.isActive = true)
    (hTok : a.accessToken = some tok) (hTokNe : tok ≠ "")
    (hExp : a.tokenExpiresAt = none) :
    getValidAccessToken now db userId platform retryCount backoffMs env oracle
      = ⟨.ok ⟨tok, false⟩, db, 0, []⟩ := by
  simp [getValidAccessToken, ha, hActive, hTok, hExp, truthyStr, hTokNe]

/-- Closed witness for `getValidAccessToken_nullExpiry_returnsStored`: a very
old account with no stored expiry is served unchanged. -/
theorem getValidAccessToken_nullExpiry_witness :
    getValidAccessToken 999999999999
      [⟨7, "u1", "x", "alice", some "AT0", some "RT0", none, some "read", true⟩]
      "u1" "x" 2 1000 (some "cid", some "sec") []
      = ⟨.ok ⟨"AT0", false⟩,
         [⟨7, "u1", "x", "alice", some "AT0", some "RT0", none, some "read", true⟩],
         0, []⟩ :=
  getValidAccessToken_nullExpiry_returnsStored 999999999999 _ "u1" "x" 2 1000
    (some "cid", some "sec") []
    ⟨7, "u1", "x", "alice", some "AT0", some "RT0", none, some "read", true⟩
    "AT0" (by decide) (by decide) (by decide) (by decide) (by decide)

/-- C3: freshness check of `getValidAccessToken`.  (1) For every stored
account whose `tokenExpiresAt` is more than 2 minutes in the future, the call
returns the stored access token unchanged with `isRefreshed = false` and makes
no provider call.  (2) For an account whose `tokenExpiresAt` is within the
2-minute buffer (or past) and which holds a refresh token, a single successful
provider response yields exactly one refresh call, `isRefreshed = true` with
the response's access token, and the new token persisted on the account row
(new expiry `now + expires_in·1000`, account forced active). -/
theorem getValidAccessToken_freshness :
    (∀ (now : Int) (db : List SocialAccount) (userId platform : String)
        (retryCount : Nat) (backoffMs : Int) (env : Option String × Option String)
        (oracle : List RefreshOutcome) (a : SocialAccount) (tok : String) (exp : Int),
      getSocialAccountByPlatform db userId platform = some a →
      a.isActive = true → a.accessToken = some tok → tok ≠ "" →
      a.tokenExpiresAt = some exp → now + 2 * 60 * 1000 < exp →
      getValidAccessToken now db userId platform retryCount backoffMs env oracle
        = ⟨.ok ⟨tok, false⟩, db, 0, []⟩) ∧
    (∀ (now : Int) (db : List SocialAccount) (userId platform : String)
        (retryCount : Nat) (backoffMs : Int) (cid csec : String)
        (tokens : RefreshedTokens) (rest : List RefreshOutcome)
        (a : SocialAccount) (tok rt : String) (exp : Int),
      getSocialAccountByPlatform db userId platform = some a →
      a.isActive = true → a.accessToken = some tok → tok ≠ "" →
      a.tokenExpiresAt = some exp → exp ≤ now + 2 * 60 * 1000 →
      a.refreshToken = some rt → rt ≠ "" → cid ≠ "" → csec ≠ "" →
      let out := getValidAccessToken now db userId platform retryCount backoffMs
        (some cid, some csec) (.success tokens :: rest)
      out.result = .ok ⟨tokens.access_token, true⟩ ∧
      out.providerCalls = 1 ∧ out.delays = [] ∧
      getSocialAccountByPlatform out.db userId platform
        = some (applyRefreshedTokens now tokens a.refreshToken a)) := by
  constructor
  · intro now db userId platform retryCount backoffMs env oracle a tok exp
      ha hActive hTok hTokNe hExp hFresh
    simp [getValidAccessToken, ha, hActive, hTok, hExp, truthyStr, hTokNe]
    intro h
    exact absurd h (by omega)
  · intro now db userId platform retryCount backoffMs cid csec tokens rest
      a tok rt exp ha hActive hTok hTokNe hExp hBuf hRt hRtNe hCid hCsec
    have hmem : a ∈ db := getSocialAccountByPlatform_mem ha
    have hid : ∀ x : SocialAccount,
        ((applyRefreshedTokens now tokens (some rt) x).id = x.id) := by
      intro x; simp [applyRefreshedTokens]
    have hsome := findById_update_isSome db a
      (applyRefreshedTokens now tokens (some rt)) hmem hid
    obtain ⟨b, hb⟩ := Option.isSome_iff_exists.mp hsome
    have hout : getValidAccessToken now db userId platform retryCount backoffMs
        (some cid, some csec) (.success tokens :: rest)
        = ⟨.ok ⟨tokens.access_token, true⟩,
           updateSocialAccount db a.id (applyRefreshedTokens now tokens (some rt)),
           1, []⟩ := by
      simp only [getValidAccessToken, ha]
      simp only [hActive, hTok, hExp, hRt, truthyStr, hTokNe, hRtNe, hCid, hCsec]
      simp only [refreshLoop, List.headD_cons]
      simp [hb, hBuf, hTokNe, hRtNe, hCid, hCsec]
      omega
    rw [hRt, hout]
    refine ⟨rfl, rfl, rfl, ?_⟩
    exact getSocialAccountByPlatform_update db userId platform a _ ha
      (fun x => by simp [applyRefreshedTokens])

/-- Closed witness for `getValidAccessToken_freshness`: a token expiring in
1000 seconds is served unchanged at time 0 (more than 2 minutes ahead), and at
time 900000 ms (1 minute 40 s before expiry, inside the buffer) one successful
provider call refreshes and persists it. -/
theorem getValidAccessToken_freshness_witness :
    (getValidAccessToken 0
        [⟨7, "u1", "x", "alice", some "AT0", some "RT0", some 1000000, some "read", true⟩]
        "u1" "x" 2 1000 (some "cid", some "sec") []
        = ⟨.ok ⟨"AT0", false⟩,
           [⟨7, "u1", "x", "alice", some "AT0", some "RT0", some 1000000, some "read", true⟩],
           0, []⟩) ∧
    (let out := getValidAccessToken 900000
        [⟨7, "u1", "x", "alice", some "AT0", some "RT0", some 1000000, some "read", true⟩]
        "u1" "x" 2 1000 (some "cid", some "sec")
        [.success ⟨"AT1", some "RT1", 7200, "read write"⟩]
     out.result = .ok ⟨"AT1", true⟩ ∧
     out.providerCalls = 1 ∧ out.delays = [] ∧
     getSocialAccountByPlatform out.db "u1" "x"
       = some (applyRefreshedTokens 900000 ⟨"AT1", some "RT1", 7200, "read write"⟩
           (some "RT0")
           ⟨7, "u1", "x", "alice", some "AT0", some "RT0", some 1000000, some "read", true⟩)) :=
  ⟨getValidAccessToken_freshness.1 0 _ "u1" "x" 2 1000 (some "cid", some "sec") []
      ⟨7, "u1", "x", "alice", some "AT0", some "RT0", some 1000000, some "read", true⟩
      "AT0" 1000000 (by decide) (by decide) (by decide) (by decide) (by decide)
      (by decide),
   getValidAccessToken_freshness.2 900000 _ "u1" "x" 2 1000 "cid" "sec"
      ⟨"AT1", some "RT1", 7200, "read write"⟩ []
      ⟨7, "u1", "x", "alice", some "AT0", some "RT0", some 1000000, some "read", true⟩
      "AT0" "RT0" 1000000 (by decide) (by decide) (by decide) (by decide)
      (by decide) (by decide) (by decide) (by decide) (by decide) (by decide)⟩

/-- C5: for every account whose token is within the 2-minute buffer or already
expired and which has no (truthy) refresh token, `getValidAccessToken`
deactivates it and throws the re-authentication-required error with zero
provider calls; and a second call on the resulting storage fails fast on the
`isActive` check, also with zero provider calls. -/
theorem getValidAccessToken_noRefreshToken_deactivates
    (now now2 : Int) (db : List SocialAccount) (userId platform : String)
    (retryCount retryCount2 : Nat) (backoffMs backoffMs2 : Int)
    (env env2 : Option String × Option String)
    (oracle oracle2 : List RefreshOutcome)
    (a : SocialAccount) (tok : String) (exp : Int)
    (ha : getSocialAccountByPlatform db userId platform = some a)
    (hActive : a.isActive = true)
    (hTok : a.accessToken = some tok) (hTokNe : tok ≠ "")
    (hExp : a.tokenExpiresAt = some exp) (hBuf : exp ≤ now + 2 * 60 * 1000)
    (hRt : truthyStr a.refreshToken = false) :
    let db1 := updateSocialAccount db a.id (fun x => { x with isActive := false })
    getValidAccessToken now db userId platform retryCount backoffMs env oracle
      = ⟨.error ("No refresh token available for " ++ platform ++
            " account. Re-authentication required."), db1, 0, []⟩ ∧
    getValidAccessToken now2 db1 userId platform retryCount2 backoffMs2 env2 oracle2
      = ⟨.error (platform ++ " account for user " ++ userId ++ " is inactive"),
         db1, 0, []⟩ := by
  intro db1
  have hfirst : getValidAccessToken now db userId platform retryCount backoffMs
      env oracle
      = ⟨.error ("No refresh token available for " ++ platform ++
            " account. Re-authentication required."), db1, 0, []⟩ := by
    have hnf : ¬ (now + 2 * 60 * 1000 < exp) := by omega
    rcases hart : a.refreshToken with _ | s
    · simp [getValidAccessToken, ha, hActive, hTok, hExp, truthyStr, hTokNe,
        hart, hnf, db1]
      omega
    · simp only [truthyStr, hart] at hRt
      simp [getValidAccessToken, ha, hActive, hTok, hExp, truthyStr, hTokNe,
        hart, hRt, hnf, db1]
      omega
  refine ⟨hfirst, ?_⟩
  have ha1 : getSocialAccountByPlatform db1 userId platform
      = some { a with isActive := false } := by
    exact getSocialAccountByPlatform_update db userId platform a _ ha
      (fun x => by simp)
  simp [getValidAccessToken, ha1]

/-- Closed witness for `getValidAccessToken_noRefreshToken_deactivates`: an
expired token with no refresh token is deactivated and rejected, and the
follow-up call fails fast on the inactive check. -/
theorem getValidAccessToken_noRefreshToken_witness :
    let db1 := updateSocialAccount
      [⟨7, "u1", "x", "alice", some "AT0", none, some 1000, some "read", true⟩] 7
      (fun x => { x with isActive := false })
    getValidAccessToken 1000000
        [⟨7, "u1", "x", "alice", some "AT0", none, some 1000, some "read", true⟩]
        "u1" "x" 2 1000 (some "cid", some "sec") []
      = ⟨.error "No refresh token available for x account. Re-authentication required.",
         db1, 0, []⟩ ∧
    getValidAccessToken 2000000 db1 "u1" "x" 2 1000 (some "cid", some "sec") []
      = ⟨.error "x account for user u1 is inactive", db1, 0, []⟩ :=
  getValidAccessToken_noRefreshToken_deactivates 1000000 2000000 _ "u1" "x" 2 2
    1000 1000 (some "cid", some "sec") (some "cid", some "sec") [] []
    ⟨7, "u1", "x", "alice", some "AT0", none, some 1000, some "read", true⟩
    "AT0" 1000 (by decide) (by decide) (by decide) (by decide) (by decide)
    (by decide) (by decide)

theorem backoff_schedule_shift (backoffMs : Int) (attempt n : Nat) :
    (backoffMs * 2 ^ attempt) ::
      (List.range n).map (fun j => backoffMs * 2 ^ (attempt + 1 + j))
    = (List.range (n + 1)).map (fun j => backoffMs * 2 ^ (attempt + j)) := by
  rw [List.range_succ_eq_map, List.map_cons, List.map_map]
  have h0 : attempt + 0 = attempt := by omega
  rw [h0]
  congr 1
  refine List.map_congr_left (fun j hj => ?_)
  have h2 : attempt + 1 + j = attempt + (j + 1) := by omega
  simp only [Function.comp_apply, h2]

theorem refreshLoop_transient_then_permanent
    (now : Int) (acctId : Nat) (platform : String) (rt : Option String)
    (retryCount : Nat) (backoffMs : Int) (p : String)
    (rest : List RefreshOutcome) (hp : isPermanentRefreshError p = true) :
    ∀ (ts : List String) (fuel attempt : Nat) (db : List SocialAccount)
      (calls : Nat) (delays : List Int) (lastErr : Option String),
      (∀ m ∈ ts, isPermanentRefreshError m = false) →
      ts.length < fuel → attempt + fuel = retryCount + 1 →
      refreshLoop now acctId platform rt retryCount backoffMs fuel attempt
        (ts.map .failure ++ .failure p :: rest) db calls delays lastErr
      = ⟨.error (reauthRequiredMsg platform),
         updateSocialAccount db acctId (fun x => { x with isActive := false }),
         calls + ts.length + 1,
         delays ++ (List.range ts.length).map
           (fun j => backoffMs * 2 ^ (attempt + j))⟩ := by
  intro ts
  induction ts with
  | nil =>
      intro fuel attempt db calls delays lastErr _ hlen hsum
      obtain ⟨f, rfl⟩ : ∃ f, fuel = f + 1 := ⟨fuel - 1, by omega⟩
      simp [refreshLoop, hp]
  | cons m ts ih =>
      intro fuel attempt db calls delays lastErr htrans hlen hsum
      obtain ⟨f, rfl⟩ : ∃ f, fuel = f + 1 := ⟨fuel - 1, by omega⟩
      have hm : isPermanentRefreshError m = false := htrans m (by simp)
      have hlt : attempt < retryCount := by
        simp only [List.length_cons] at hlen; omega
      have hrec := ih f (attempt + 1) db (calls + 1)
        (delays ++ [backoffMs * 2 ^ attempt]) (some m)
        (fun x hx => htrans x (by simp [hx]))
        (by simp only [List.length_cons] at hlen; omega) (by omega)
      simp only [List.map_cons, List.cons_append, refreshLoop, List.headD_cons,
        hm, Bool.false_eq_true, if_false, hlt, if_pos, List.tail_cons]
      rw [hrec]
      simp only [GVATOutput.mk.injEq, List.length_cons, true_and]
      constructor
      · omega
      · rw [List.append_assoc, List.singleton_append, backoff_schedule_shift]

theorem refreshLoop_step_transient
    (now : Int) (acctId : Nat) (platform : String) (rt : Option String)
    (retryCount : Nat) (backoffMs : Int) (f attempt : Nat) (m : String)
    (rest : List RefreshOutcome) (db : List SocialAccount) (calls : Nat)
    (delays : List Int) (lastErr : Option String)
    (hm : isPermanentRefreshError m = false) (hlt : attempt < retryCount) :
    refreshLoop now acctId platform rt retryCount backoffMs (f + 1) attempt
      (.failure m :: rest) db calls delays lastErr
    = refreshLoop now acctId platform rt retryCount backoffMs f (attempt + 1)
        rest db (calls + 1) (delays ++ [backoffMs * 2 ^ attempt]) (some m) := by
  simp [refreshLoop, hm, hlt]

theorem refreshLoop_all_transient
    (now : Int) (acctId : Nat) (platform : String) (rt : Option String)
    (retryCount : Nat) (backoffMs : Int) :
    ∀ (ts : List String) (attempt : Nat) (db : List SocialAccount)
      (calls : Nat) (delays : List Int) (lastErr : Option String),
      (∀ m ∈ ts, isPermanentRefreshError m = false) →
      attempt + ts.length = retryCount + 1 →
      refreshLoop now acctId platform rt retryCount backoffMs ts.length attempt
        (ts.map .failure) db calls delays lastErr
      = ⟨.error (aggregateFailureMsg (retryCount + 1)
            (ts.getLastD (lastErr.getD "undefined"))),
         db, calls + ts.length,
         delays ++ (List.range (ts.length - 1)).map
           (fun j => backoffMs * 2 ^ (attempt + j))⟩ := by
  intro ts
  induction ts with
  | nil =>
      intro attempt db calls delays lastErr _ hsum
      simp [refreshLoop]
  | cons m ts ih =>
      intro attempt db calls delays lastErr htrans hsum
      have hm : isPermanentRefreshError m = false := htrans m (by simp)
      rcases ts with _ | ⟨t, ts'⟩
      · -- last allowed attempt: no backoff, the loop exits and aggregates
        have hstop : ¬ attempt < retryCount := by
          simp only [List.length_cons, List.length_nil] at hsum; omega
        simp [refreshLoop, hm, hstop]
      · have hlt : attempt < retryCount := by
          simp only [List.length_cons] at hsum; omega
        have hrec := ih (attempt + 1) db (calls + 1)
          (delays ++ [backoffMs * 2 ^ attempt]) (some m)
          (fun x hx => htrans x (by simp [hx]))
          (by simp only [List.length_cons] at hsum ⊢; omega)
        rw [show (m :: t :: ts').length = (t :: ts').length + 1 from rfl,
          List.map_cons,
          refreshLoop_step_transient now acctId platform rt retryCount backoffMs
            (t :: ts').length attempt m _ db calls delays lastErr hm hlt,
          hrec]
        simp only [GVATOutput.mk.injEq, List.length_cons, List.getLastD_cons,
          Option.getD_some, true_and]
        refine ⟨by omega, ?_⟩
        rw [List.append_assoc, List.singleton_append]
        have hn : ts'.length + 1 + 1 - 1 = (ts'.length + 1 - 1) + 1 := by omega
        rw [hn]
        have hn2 : ts'.length + 1 - 1 = ts'.length := by omega
        rw [hn2, backoff_schedule_shift]

theorem refreshLoop_calls_le
    (now : Int) (acctId : Nat) (platform : String) (rt : Option String)
    (retryCount : Nat) (backoffMs : Int) :
    ∀ (fuel attempt : Nat) (oracle : List RefreshOutcome)
      (db : List SocialAccount) (calls : Nat) (delays : List Int)
      (lastErr : Option String),
      (refreshLoop now acctId platform rt retryCount backoffMs fuel attempt
        oracle db calls delays lastErr).providerCalls ≤ calls + fuel := by
  intro fuel
  induction fuel with
  | zero =>
      intro attempt oracle db calls delays lastErr
      simp [refreshLoop]
  | succ f ih =>
      intro attempt oracle db calls delays lastErr
      simp only [refreshLoop]
      split
      · split
        · simp
        · split
          · simp
          · split
            · exact le_trans (ih _ _ _ _ _ _) (by omega)
            · exact le_trans (ih _ _ _ _ _ _) (by omega)
      · split
        · simp
        · split
          · exact le_trans (ih _ _ _ _ _ _) (by omega)
          · exact le_trans (ih _ _ _ _ _ _) (by omega)

/-- C4: retry policy for transient refresh failures.  (1) `refreshAccessToken`
is attempted at most `retryCount + 1` times in total, whatever the oracle
does.  (2) When every attempt fails transiently, the loop waits
`backoffMs · 2^attempt` between consecutive attempts (attempt counted from 0,
no wait after the last), makes exactly `retryCount + 1` calls, and throws the
aggregate error naming the attempt total and the last underlying error's
message. -/
theorem getValidAccessToken_retryPolicy :
    (∀ (now : Int) (db : List SocialAccount) (userId platform : String)
        (retryCount : Nat) (backoffMs : Int) (env : Option String × Option String)
        (oracle : List RefreshOutcome),
      (getValidAccessToken now db userId platform retryCount backoffMs env
        oracle).providerCalls ≤ retryCount + 1) ∧
    (∀ (now : Int) (db : List SocialAccount) (userId platform : String)
        (retryCount : Nat) (backoffMs : Int) (cid csec : String)
        (ts : List String) (a : SocialAccount) (tok rt : String) (exp : Int),
      getSocialAccountByPlatform db userId platform = some a →
      a.isActive = true → a.accessToken = some tok → tok ≠ "" →
      a.tokenExpiresAt = some exp → exp ≤ now + 2 * 60 * 1000 →
      a.refreshToken = some rt → rt ≠ "" → cid ≠ "" → csec ≠ "" →
      (∀ m ∈ ts, isPermanentRefreshError m = false) →
      ts.length = retryCount + 1 →
      getValidAccessToken now db userId platform retryCount backoffMs
        (some cid, some csec) (ts.map .failure)
      = ⟨.error (aggregateFailureMsg (retryCount + 1) (ts.getLastD "undefined")),
         db, retryCount + 1,
         (List.range retryCount).map (fun j => backoffMs * 2 ^ j)⟩) := by
  constructor
  · intro now db userId platform retryCount backoffMs env oracle
    rcases h : getSocialAccountByPlatform db userId platform with _ | a
    · simp [getValidAccessToken, h]
    · simp only [getValidAccessToken, h]
      repeat' split
      any_goals simp
      exact le_trans (refreshLoop_calls_le _ _ _ _ _ _ _ _ _ _ _ _ _) (by omega)
  · intro now db userId platform retryCount backoffMs cid csec ts a tok rt exp
      ha hActive hTok hTokNe hExp hBuf hRt hRtNe hCid hCsec htrans hlen
    have hBuf' : exp ≤ now + 120000 := by omega
    have hred : getValidAccessToken now db userId platform retryCount backoffMs
        (some cid, some csec) (ts.map .failure)
        = refreshLoop now a.id platform (some rt) retryCount backoffMs
            (retryCount + 1) 0 (ts.map .failure) db 0 [] none := by
      simp [getValidAccessToken, ha, hActive, hTok, hExp, hRt, truthyStr,
        hTokNe, hRtNe, hCid, hCsec, hBuf']
    have H := refreshLoop_all_transient now a.id platform (some rt) retryCount
      backoffMs ts 0 db 0 [] none htrans (by omega)
    rw [hlen] at H
    rw [hred, H]
    simp

/-- C2: when a refresh attempt fails with an error message indicating the
refresh token is invalid or expired — after any number of earlier transient
failures — `getValidAccessToken` deactivates the account immediately after
that first such failure and throws the re-authentication-required error,
consuming no remaining retry attempts (exactly the prior attempts plus this
one, no further backoff waits, rest of the oracle untouched). -/
theorem getValidAccessToken_permanentFailure
    (now : Int) (db : List SocialAccount) (userId platform : String)
    (retryCount : Nat) (backoffMs : Int) (cid csec : String)
    (ts : List String) (p : String) (rest : List RefreshOutcome)
    (a : SocialAccount) (tok rt : String) (exp : Int)
    (ha : getSocialAccountByPlatform db userId platform = some a)
    (hActive : a.isActive = true)
    (hTok : a.accessToken = some tok) (hTokNe : tok ≠ "")
    (hExp : a.tokenExpiresAt = some exp) (hBuf : exp ≤ now + 2 * 60 * 1000)
    (hRt : a.refreshToken = some rt) (hRtNe : rt ≠ "")
    (hCid : cid ≠ "") (hCsec : csec ≠ "")
    (htrans : ∀ m ∈ ts, isPermanentRefreshError m = false)
    (hp : isPermanentRefreshError p = true)
    (hlen : ts.length ≤ retryCount) :
    let out := getValidAccessToken now db userId platform retryCount backoffMs
      (some cid, some csec) (ts.map .failure ++ .failure p :: rest)
    out = ⟨.error (reauthRequiredMsg platform),
           updateSocialAccount db a.id (fun x => { x with isActive := false }),
           ts.length + 1,
           (List.range ts.length).map (fun j => backoffMs * 2 ^ j)⟩ ∧
    getSocialAccountByPlatform out.db userId platform
      = some { a with isActive := false } := by
  intro out
  have hBuf' : exp ≤ now + 120000 := by omega
  have hred : getValidAccessToken now db userId platform retryCount backoffMs
      (some cid, some csec) (ts.map .failure ++ .failure p :: rest)
      = refreshLoop now a.id platform (some rt) retryCount backoffMs
          (retryCount + 1) 0 (ts.map .failure ++ .failure p :: rest) db 0 [] none := by
    simp [getValidAccessToken, ha, hActive, hTok, hExp, hRt, truthyStr,
      hTokNe, hRtNe, hCid, hCsec, hBuf']
  have H := refreshLoop_transient_then_permanent now a.id platform (some rt)
    retryCount backoffMs p rest hp ts (retryCount + 1) 0 db 0 [] none htrans
    (by omega) (by omega)
  have hout : out = ⟨.error (reauthRequiredMsg platform),
      updateSocialAccount db a.id (fun x => { x with isActive := false }),
      ts.length + 1,
      (List.range ts.length).map (fun j => backoffMs * 2 ^ j)⟩ := by
    show getValidAccessToken now db userId platform retryCount backoffMs
      (some cid, some csec) (ts.map .failure ++ .failure p :: rest) = _
    rw [hred, H]
    simp
  refine ⟨hout, ?_⟩
  rw [hout]
  exact getSocialAccountByPlatform_update db userId platform a _ ha
    (fun x => by simp)

/-- Closed witness for `getValidAccessToken_retryPolicy`: with `retryCount=2`
three transient failures exhaust the attempts with backoff waits 1000 and
2000 ms, and the call-count bound holds on an empty store. -/
theorem getValidAccessToken_retryPolicy_witness :
    (getValidAccessToken 0 [] "u1" "x" 2 1000 (none, none) []).providerCalls ≤ 3 ∧
    getValidAccessToken 1000000
        [⟨7, "u1", "x", "alice", some "AT0", some "RT0", some 1000, some "read", true⟩]
        "u1" "x" 2 1000 (some "cid", some "sec")
        (["fetch failed A", "fetch failed B", "fetch failed C"].map .failure)
      = ⟨.error (aggregateFailureMsg 3 "fetch failed C"),
         [⟨7, "u1", "x", "alice", some "AT0", some "RT0", some 1000, some "read", true⟩],
         3, (List.range 2).map (fun j => 1000 * 2 ^ j)⟩ :=
  ⟨getValidAccessToken_retryPolicy.1 0 [] "u1" "x" 2 1000 (none, none) [],
   getValidAccessToken_retryPolicy.2 1000000 _ "u1" "x" 2 1000 "cid" "sec"
     ["fetch failed A", "fetch failed B", "fetch failed C"]
     ⟨7, "u1", "x", "alice", some "AT0", some "RT0", some 1000, some "read", true⟩
     "AT0" "RT0" 1000 (by decide) (by decide) (by decide) (by decide)
     (by decide) (by decide) (by decide) (by decide) (by decide) (by decide)
     (by decide) (by decide)⟩

/-- Closed witness for `getValidAccessToken_permanentFailure`: one transient
failure, then a failure mentioning `invalid_grant` deactivates the account
after 2 calls and one 1000 ms wait, ignoring the rest of the oracle. -/
theorem getValidAccessToken_permanentFailure_witness :
    let out := getValidAccessToken 1000000
      [⟨7, "u1", "x", "alice", some "AT0", some "RT0", some 1000, some "read", true⟩]
      "u1" "x" 2 1000 (some "cid", some "sec")
      (["fetch failed A"].map .failure ++
        .failure "Token refresh failed: invalid_grant" ::
          [.failure "never consumed"])
    out = ⟨.error (reauthRequiredMsg "x"),
           updateSocialAccount
             [⟨7, "u1", "x", "alice", some "AT0", some "RT0", some 1000, some "read", true⟩]
             7 (fun x => { x with isActive := false }),
           2, (List.range 1).map (fun j => 1000 * 2 ^ j)⟩ ∧
    getSocialAccountByPlatform out.db "u1" "x"
      = some ⟨7, "u1", "x", "alice", some "AT0", some "RT0", some 1000, some "read", false⟩ :=
  getValidAccessToken_permanentFailure 1000000 _ "u1" "x" 2 1000 "cid" "sec"
    ["fetch failed A"] "Token refresh failed: invalid_grant" [.failure "never consumed"]
    ⟨7, "u1", "x", "alice", some "AT0", some "RT0", some 1000, some "read", true⟩
    "AT0" "RT0" 1000 (by decide) (by decide) (by decide) (by decide) (by decide)
    (by decide) (by decide) (by decide) (by decide) (by decide) (by decide)
    (by decide) (by decide)

/-! ## Claims about the ephemeral state store -/

/-- Deleting a state from the in-process store makes its lookup miss. -/
theorem pkceStoreGet_delete (store : List (String × PkceEntry)) (state : String) :
    pkceStoreGet (pkceStoreDelete store state) state = none := by
  unfold pkceStoreGet pkceStoreDelete
  have hnone : List.find? (fun kv => kv.1 == state)
      (List.filter (fun kv => kv.1 != state) store) = none := by
    rw [List.find?_eq_none]
    intro kv hkv
    have hne := List.of_mem_filter hkv
    simp only [bne_iff_ne, ne_eq] at hne
    simp [hne]
  rw [hnone]
  rfl

/-- One concrete run of the flow's save path: `generatePKCE` over fixed
randomness at time 0 on an empty store (sets the cookie and the cache
entry). -/
def replaySaved : GeneratePKCEOutput :=
  generatePKCE (fun l => l) (List.replicate 32 0) (List.replicate 16 0) 0 []

/-- The DB row the start handler persists for that run. -/
def replayDbRows : List OauthStateRow :=
  persistOauthStateRow 0 replaySaved.triple.state replaySaved.triple.codeVerifier []

/-- First callback retrieve for that state, 1 second later (served by the
cookie). -/
def replayFirstCall : CallbackRetrieveResult :=
  callbackRetrieve 1000 replaySaved.triple.state replaySaved.setCookies
    replaySaved.store replayDbRows

/-- Second callback retrieve with the same state, after the browser dropped
the cleared cookie. -/
def replaySecondCall : CallbackRetrieveResult :=
  callbackRetrieve 2000 replaySaved.triple.state
    (applyClearedCookies replaySaved.setCookies replayFirstCall.clearedCookies)
    replayFirstCall.store replayFirstCall.dbRows

/-- C1 counterexample: a state saved by the flow (signed cookie plus in-process
cache via `generatePKCE`, plus the DB row persisted by the start handler) is
consumed by the callback's retrieve operation, yet a second retrieve with the
same state still returns the code verifier — the cookie hit cleared only the
cookie, so the cache (and the DB row) still serve the replay instead of
returning null. -/
theorem retrieveAndConsume_replay_counterexample :
    replayFirstCall.verifier = some replaySaved.triple.codeVerifier ∧
    replaySecondCall.verifier = some replaySaved.triple.codeVerifier ∧
    replaySecondCall.verifier ≠ none := by decide

/-- C1 amended: the retrieve operation consumes only the channel that served
it.  A fresh state-matching cookie hit returns the verifier, clears the cookie
and leaves the in-process cache and the DB rows untouched; one-time use holds
only when the in-process cache alone holds the state — then the first call
returns the verifier and deletes the entry, and a second call returns null
(the DB row, when present, is never deleted by retrieval). -/
theorem retrieveAndConsume_perChannel_consumption :
    (∀ (now : Int) (state : String) (cookies : List (String × CookieVal))
        (store : List (String × PkceEntry)) (dbRows : List OauthStateRow)
        (data : CookiePayload),
      signedCookieGet cookies (pkceCookieName state) = some (.payload data) →
      data.state = state → data.codeVerifier ≠ "" →
      now - data.timestamp < 20 * 60 * 1000 →
      callbackRetrieve now state cookies store dbRows
        = ⟨some data.codeVerifier, store, dbRows, [pkceCookieName state]⟩) ∧
    (∀ (now now2 : Int) (state : String) (cookies : List (String × CookieVal))
        (store : List (String × PkceEntry)) (dbRows : List OauthStateRow)
        (v : String) (t : Int),
      signedCookieGet cookies (pkceCookieName state) = none →
      pkceStoreGet store state = some ⟨v, t⟩ →
      getOauthState dbRows state = none →
      let r1 := callbackRetrieve now state cookies store dbRows
      r1.verifier = some v ∧ r1.store = pkceStoreDelete store state ∧
      (callbackRetrieve now2 state cookies r1.store r1.dbRows).verifier = none) := by
  constructor
  · intro now state cookies store dbRows data hcookie hstate hver hfresh
    have hfresh' : now - data.timestamp < 1200000 := by omega
    simp [callbackRetrieve, retrieveCodeVerifier, hcookie, hstate, truthyStr,
      hver, hfresh']
  · intro now now2 state cookies store dbRows v t hcookie hmem hdb
    have h1 : callbackRetrieve now state cookies store dbRows
        = ⟨some v, pkceStoreDelete store state, dbRows, []⟩ := by
      simp [callbackRetrieve, retrieveCodeVerifier, pkceMemoryFallback,
        hcookie, hmem]
    refine ⟨by rw [h1], by rw [h1], ?_⟩
    rw [h1]
    simp [callbackRetrieve, retrieveCodeVerifier, pkceMemoryFallback,
      hcookie, hdb, pkceStoreGet_delete]

/-- Closed witness for `retrieveAndConsume_perChannel_consumption`. -/
theorem retrieveAndConsume_perChannel_witness :
    (callbackRetrieve 1000 "st8"
        [(pkceCookieName "st8", .payload ⟨"ver8", "st8", 0⟩)]
        [("st8", (⟨"ver8", 0⟩ : PkceEntry))] []
      = ⟨some "ver8", [("st8", (⟨"ver8", 0⟩ : PkceEntry))], [],
         [pkceCookieName "st8"]⟩) ∧
    (let r1 := callbackRetrieve 1000 "st8" [] [("st8", (⟨"ver8", 0⟩ : PkceEntry))] []
     r1.verifier = some "ver8" ∧
     r1.store = pkceStoreDelete [("st8", (⟨"ver8", 0⟩ : PkceEntry))] "st8" ∧
     (callbackRetrieve 2000 "st8" [] r1.store r1.dbRows).verifier = none) :=
  ⟨retrieveAndConsume_perChannel_consumption.1 1000 "st8"
      [(pkceCookieName "st8", .payload ⟨"ver8", "st8", 0⟩)]
      [("st8", (⟨"ver8", 0⟩ : PkceEntry))] [] ⟨"ver8", "st8", 0⟩
      (by decide) (by decide) (by decide) (by decide),
   retrieveAndConsume_perChannel_consumption.2 1000 2000 "st8" []
      [("st8", (⟨"ver8", 0⟩ : PkceEntry))] [] "ver8" 0
      (by decide) (by decide) (by decide)⟩

/-- C6 counterexample: an in-process cache entry 11 minutes old (older than
the cache channel's 10-minute TTL, so the sweep would delete it) is still
returned by the retrieve operation instead of being treated as absent. -/
theorem staleCacheEntry_counterexample :
    let store := [("st8", (⟨"ver8", 0⟩ : PkceEntry))]
    sweepPkceStore 660000 store = [] ∧
    (retrieveCodeVerifier 660000 "st8" [] store).verifier = some "ver8" ∧
    (retrieveCodeVerifier 660000 "st8" [] store).verifier ≠ none := by decide

/-- C6 amended: the cookie and database channels do check age at retrieval —
a cookie payload at least 20 minutes old is not returned (the cookie is
cleared and the cache is consulted instead), and a DB row whose `expiresAt`
is not strictly in the future is ignored — but the in-process cache performs
no retrieve-time expiry check: an unswept entry is returned whatever its age,
even one the 10-minute sweep would delete. -/
theorem channelTTL_checks :
    (∀ (now : Int) (state : String) (cookies : List (String × CookieVal))
        (store : List (String × PkceEntry)) (data : CookiePayload),
      signedCookieGet cookies (pkceCookieName state) = some (.payload data) →
      data.state = state → ¬ (now - data.timestamp < 20 * 60 * 1000) →
      retrieveCodeVerifier now state cookies store
        = pkceMemoryFallback state store [pkceCookieName state]) ∧
    (∀ (now : Int) (state : String) (cookies : List (String × CookieVal))
        (store : List (String × PkceEntry)) (dbRows : List OauthStateRow)
        (row : OauthStateRow) (e : Int),
      signedCookieGet cookies (pkceCookieName state) = none →
      pkceStoreGet store state = none →
      getOauthState dbRows state = some row →
      row.expiresAt = some e → e ≤ now →
      (callbackRetrieve now state cookies store dbRows).verifier = none) ∧
    (∀ (now : Int) (state : String) (cookies : List (String × CookieVal))
        (store : List (String × PkceEntry)) (v : String) (t : Int),
      signedCookieGet cookies (pkceCookieName state) = none →
      pkceStoreGet store state = some ⟨v, t⟩ →
      (retrieveCodeVerifier now state cookies store).verifier = some v) := by
  refine ⟨?_, ?_, ?_⟩
  · intro now state cookies store data hcookie hstate hstale
    have hstale' : ¬ (now - data.timestamp < 1200000) := by omega
    simp [retrieveCodeVerifier, hcookie, hstate, hstale']
  · intro now state cookies store dbRows row e hcookie hmem hdb hexp hpast
    have hnlt : ¬ (now < e) := by omega
    simp [callbackRetrieve, retrieveCodeVerifier, pkceMemoryFallback,
      hcookie, hmem, hdb, hexp, hnlt]
  · intro now state cookies store v t hcookie hmem
    simp [retrieveCodeVerifier, pkceMemoryFallback, hcookie, hmem]

/-- Closed witness for `channelTTL_checks`: a 21-minute-old cookie falls
through to the (empty) cache, an expired DB row is ignored, and a stale cache
entry is still served. -/
theorem channelTTL_checks_witness :
    (retrieveCodeVerifier 1260000 "st8"
        [(pkceCookieName "st8", .payload ⟨"ver8", "st8", 0⟩)] []
      = pkceMemoryFallback "st8" [] [pkceCookieName "st8"]) ∧
    ((callbackRetrieve 1260000 "st8" [] [] [⟨"st8", "ver8", "x", some 1200000⟩]).verifier
      = none) ∧
    ((retrieveCodeVerifier 660000 "st8" [] [("st8", (⟨"ver8", 0⟩ : PkceEntry))]).verifier
      = some "ver8") :=
  ⟨channelTTL_checks.1 1260000 "st8"
      [(pkceCookieName "st8", .payload ⟨"ver8", "st8", 0⟩)] [] ⟨"ver8", "st8", 0⟩
      (by decide) (by decide) (by decide),
   channelTTL_checks.2.1 1260000 "st8" [] [] [⟨"st8", "ver8", "x", some 1200000⟩]
      ⟨"st8", "ver8", "x", some 1200000⟩ 1200000
      (by decide) (by decide) (by decide) (by decide) (by decide),
   channelTTL_checks.2.2 660000 "st8" [] [("st8", (⟨"ver8", 0⟩ : PkceEntry))]
      "ver8" 0 (by decide) (by decide)⟩

/-- C9 counterexample: `generatePKCE` is not side-effect free — starting from
an empty in-process store and no cookies, one call leaves a cache entry and
sets a signed cookie, so the generator itself persists the pair rather than
leaving persistence to the caller. -/
theorem generatePKCE_sideEffect_counterexample :
    let g := generatePKCE (fun l => l) (List.replicate 32 0) (List.replicate 16 0) 0 []
    g.store ≠ [] ∧ g.setCookies ≠ [] ∧
    g.store = [(g.triple.state, ⟨g.triple.codeVerifier, 0⟩)] := by decide

/-- C9 amended: `generatePKCE` returns the `{codeVerifier, codeChallenge,
state}` triple and itself persists it into two of the three channels — it
sets the signed `oauth_pkce_<state>` cookie and inserts the entry into the
in-process cache; only the database fallback row is left to the caller (the
start handler persists it before redirecting). -/
theorem generatePKCE_effects (sha256 : List Nat → List Nat)
    (verifierBytes stateBytes : List Nat) (now : Int)
    (store : List (String × PkceEntry)) :
    let g := generatePKCE sha256 verifierBytes stateBytes now store
    g.store = pkceStoreSet store g.triple.state ⟨g.triple.codeVerifier, now⟩ ∧
    g.setCookies = [(pkceCookieName g.triple.state,
      .payload ⟨g.triple.codeVerifier, g.triple.state, now⟩)] ∧
    persistOauthStateRow now g.triple.state g.triple.codeVerifier []
      = [⟨g.triple.state, g.triple.codeVerifier, "x", some (now + 20 * 60 * 1000)⟩] :=
  ⟨rfl, rfl, rfl⟩

/-! ## Claims about the PKCE generator's outputs -/

/-- Length of an unpadded base64url rendering: ⌈4·n/3⌉ characters for n
bytes. -/
theorem b64urlEncode_length : ∀ l : List Nat,
    (b64urlEncode l).length = (4 * l.length + 2) / 3
  | [] => rfl
  | [_] => by simp [b64urlEncode]
  | [_, _] => by simp [b64urlEncode]
  | _ :: _ :: _ :: rest => by
      have ih := b64urlEncode_length rest
      simp only [b64urlEncode, List.length_cons, ih]
      omega

/-- Every position of the base64url alphabet table, and its default, lies in
the table. -/
theorem getD_mem_b64Chars : ∀ i, i < 64 → b64Chars.getD i 'A' ∈ b64Chars := by
  decide

/-- Each emitted base64url digit belongs to the alphabet. -/
theorem b64c_mem (n : Nat) : b64c n ∈ b64Chars :=
  getD_mem_b64Chars (n % 64) (Nat.mod_lt n (by norm_num))

/-- Every character of an unpadded base64url rendering belongs to the
alphabet. -/
theorem b64urlEncode_mem : ∀ l : List Nat, ∀ ch ∈ b64urlEncode l, ch ∈ b64Chars
  | [] => by simp [b64urlEncode]
  | [_] => by
      intro ch hch
      simp only [b64urlEncode, List.mem_cons, List.not_mem_nil, or_false] at hch
      rcases hch with rfl | rfl
      · exact b64c_mem _
      · exact b64c_mem _
  | [_, _] => by
      intro ch hch
      simp only [b64urlEncode, List.mem_cons, List.not_mem_nil, or_false] at hch
      rcases hch with rfl | rfl | rfl
      · exact b64c_mem _
      · exact b64c_mem _
      · exact b64c_mem _
  | a :: b :: c :: rest => by
      intro ch hch
      simp only [b64urlEncode, List.mem_cons] at hch
      rcases hch with rfl | rfl | rfl | rfl | hch
      · exact b64c_mem _
      · exact b64c_mem _
      · exact b64c_mem _
      · exact b64c_mem _
      · exact b64urlEncode_mem rest ch hch

/-- The base64url alphabet is made of unreserved characters only. -/
theorem b64Chars_unreserved :
    ∀ c ∈ b64Chars, c.isAlphanum = true ∨ c = '-' ∨ c = '_' := by decide

/-- C7: every PKCE triple produced by the generator has a code verifier of
length 43 ∈ [43,128] (base64url of 32 random bytes) made only of unreserved
URL-safe base64 characters, and a code challenge equal to the base64url
rendering of the SHA-256 digest of the verifier string. -/
theorem generatePKCE_pkceConstraints (sha256 : List Nat → List Nat)
    (verifierBytes stateBytes : List Nat) (now : Int)
    (store : List (String × PkceEntry))
    (hlen : verifierBytes.length = 32) :
    let g := generatePKCE sha256 verifierBytes stateBytes now store
    (43 ≤ g.triple.codeVerifier.length ∧ g.triple.codeVerifier.length ≤ 128) ∧
    (∀ ch ∈ g.triple.codeVerifier.data,
      ch.isAlphanum = true ∨ ch = '-' ∨ ch = '_') ∧
    g.triple.codeChallenge = ⟨b64urlEncode (sha256 (strUtf8 g.triple.codeVerifier))⟩ := by
  intro g
  have hv : g.triple.codeVerifier.data = b64urlEncode verifierBytes := rfl
  have hvl : g.triple.codeVerifier.length = (b64urlEncode verifierBytes).length := rfl
  refine ⟨?_, ?_, rfl⟩
  · rw [hvl, b64urlEncode_length, hlen]
    omega
  · intro ch hch
    rw [hv] at hch
    exact b64Chars_unreserved ch (b64urlEncode_mem verifierBytes ch hch)

/-- Closed witness for `generatePKCE_pkceConstraints` at a concrete 32-byte
randomness input. -/
theorem generatePKCE_pkceConstraints_witness :
    let g := generatePKCE (fun l => l) (List.replicate 32 7) (List.replicate 16 5) 0 []
    (43 ≤ g.triple.codeVerifier.length ∧ g.triple.codeVerifier.length ≤ 128) ∧
    (∀ ch ∈ g.triple.codeVerifier.data,
      ch.isAlphanum = true ∨ ch = '-' ∨ ch = '_') ∧
    g.triple.codeChallenge
      = ⟨b64urlEncode ((fun l => l) (strUtf8 g.triple.codeVerifier))⟩ :=
  generatePKCE_pkceConstraints (fun l => l) (List.replicate 32 7)
    (List.replicate 16 5) 0 [] (by decide)

/-! ## Claim about the authorization URL builder -/

set_option maxRecDepth 8192 in
/-- C8: for every input with a non-empty scope string, `buildAuthUrl` passes
`URLSearchParams` exactly the seven parameters `response_type=code`,
`client_id`, `redirect_uri`, `scope` (space-delimited, form-encoded on
serialisation), `state`, `code_challenge`, and `code_challenge_method` fixed
to "S256" (never "plain"); in particular
`buildAuthUrl "cid" "https://x/cb" "st8" "chal" "read write"` renders exactly
those seven parameters with those values. -/
theorem buildAuthUrl_queryParams :
    (∀ clientId redirectUri state codeChallenge sc : String, sc ≠ "" →
      buildAuthUrlParams clientId redirectUri state codeChallenge (some sc)
        = [("response_type", "code"),
           ("client_id", clientId),
           ("redirect_uri", redirectUri),
           ("scope", sc),
           ("state", state),
           ("code_challenge", codeChallenge),
           ("code_challenge_method", "S256")] ∧
      ("S256" : String) ≠ "plain") ∧
    buildAuthUrl "cid" "https://x/cb" "st8" "chal" (some "read write")
      = "https://twitter.com/i/oauth2/authorize?response_type=code&client_id=cid&redirect_uri=https%3A%2F%2Fx%2Fcb&scope=read+write&state=st8&code_challenge=chal&code_challenge_method=S256" := by
  constructor
  · intro clientId redirectUri state codeChallenge sc hsc
    refine ⟨?_, by decide⟩
    simp [buildAuthUrlParams, truthyStr, hsc]
  · decide

/-- Closed witness for `buildAuthUrl_queryParams` at the spec's example
input. -/
theorem buildAuthUrl_queryParams_witness :
    buildAuthUrlParams "cid" "https://x/cb" "st8" "chal" (some "read write")
      = [("response_type", "code"),
         ("client_id", "cid"),
         ("redirect_uri", "https://x/cb"),
         ("scope", "read write"),
         ("state", "st8"),
         ("code_challenge", "chal"),
         ("code_challenge_method", "S256")] :=
  (buildAuthUrl_queryParams.1 "cid" "https://x/cb" "st8" "chal" "read write"
    (by decide)).1
